import Mathlib

/-!
Verification of the in-memory CRD index and its query tools.

This development shallowly embeds the core of the crdmcp server:
the similarity scorer (src/utils/helpers.ts), the fuzzy suggestion
search and instruction relevance logic (src/tools/base-tool.ts), the
four query tools (list/details/find-samples/guidance), and the
duplicate-key handling of the CRD loader.

Modelling conventions:
- JavaScript strings are Lean String values; only ASCII case mapping is
  modelled (toLowerCase), and localeCompare is modelled as code-point
  lexicographic comparison.
- JavaScript numbers are exact rationals; the source computes
  (L - d) / L on small nonnegative integers, modelled as mkRat (L - d) L.
- A JS Map is an insertion-ordered association list; Map.set on an
  existing key replaces the value in place, otherwise appends.
- In-place Array.prototype.sort mutation is modelled by explicit state
  passing: the find-samples tool returns the result together with the
  (possibly reordered) loaded data.
- JS truthiness on optional strings (undefined and "" are falsy) and on
  optional arrays (undefined falsy, any array truthy) is modelled
  explicitly where the source relies on it.
-/

/-! ## String primitives (ASCII model of the JS string operations) -/

/-- ASCII lower-casing of one character, the model of toLowerCase. -/
def lowerChar (c : Char) : Char :=
  if 65 ≤ c.toNat ∧ c.toNat ≤ 90 then Char.ofNat (c.toNat + 32) else c

/-- Model of String.prototype.toLowerCase. -/
def lowerStr (s : String) : String := ⟨s.data.map lowerChar⟩

/-- Boolean test that the first list is a prefix of the second. -/
def isPrefixB : List Char → List Char → Bool
  | [], _ => true
  | _ :: _, [] => false
  | a :: as, b :: bs => a = b && isPrefixB as bs

/-- Boolean test that the pattern occurs contiguously in the list. -/
def isInfixB (pat : List Char) : List Char → Bool
  | [] => isPrefixB pat []
  | l@(_ :: rest) => isPrefixB pat l || isInfixB pat rest

/-- Model of String.prototype.includes: s contains sub. -/
def strIncludes (s sub : String) : Bool := isInfixB sub.data s.data

/-- Lexicographic comparison of char lists by code point, as an integer
sign, the model of the comparator contract of localeCompare. -/
def listCmp : List Char → List Char → Int
  | [], [] => 0
  | [], _ :: _ => -1
  | _ :: _, [] => 1
  | a :: as, b :: bs =>
    if a.toNat < b.toNat then -1
    else if b.toNat < a.toNat then 1
    else listCmp as bs

/-- Model of a.localeCompare(b) (code-point order). -/
def strCmp (a b : String) : Int := listCmp a.data b.data

theorem listCmp_total (as bs : List Char) : listCmp as bs ≤ 0 ∨ listCmp bs as ≤ 0 := by
  induction as generalizing bs with
  | nil => cases bs <;> simp [listCmp]
  | cons a as ih =>
    cases bs with
    | nil => simp [listCmp]
    | cons b bs =>
      by_cases h1 : a.toNat < b.toNat
      · left; simp [listCmp, h1]
      · by_cases h2 : b.toNat < a.toNat
        · right; simp [listCmp, h1, h2]
        · have := ih bs
          simpa [listCmp, h1, h2] using this

theorem strCmp_total (a b : String) : strCmp a b ≤ 0 ∨ strCmp b a ≤ 0 :=
  listCmp_total a.data b.data

/-! ## Levenshtein distance (row-by-row dynamic programme of the source) -/

/-- One cell-by-cell pass along str1, given the previous row's tail, the
diagonal cell and the freshly computed cell to the left. -/
def nrAux (y : Char) : List Char → List Nat → Nat → Nat → List Nat
  | [], _, _, _ => []
  | _ :: _, [], _, _ => []
  | x :: xs, pc :: pcs, diag, left =>
    let cost := if x = y then 0 else 1
    let cell := min (min (left + 1) (pc + 1)) (diag + cost)
    cell :: nrAux y xs pcs pc cell

/-- The next matrix row for one further character of str2. -/
def nextRow (y : Char) (str1 : List Char) (prev : List Nat) : List Nat :=
  match prev with
  | [] => []
  | d :: rest => (d + 1) :: nrAux y str1 rest d (d + 1)

/-- Model of levenshteinDistance in src/utils/helpers.ts: the DP matrix
is built row by row; the answer is the last cell of the last row. -/
def levenshteinDistance (str1 str2 : List Char) : Nat :=
  let finalRow := str2.foldl (fun row y => nextRow y str1 row) (List.range (str1.length + 1))
  finalRow.getLastD 0

/-- Model of calculateSimilarity in src/utils/helpers.ts. Note that the
source does NOT lower-case its inputs; callers do. The float division
(longer.length - distance) / longer.length is the exact rational. -/
def calculateSimilarity (str1 str2 : String) : ℚ :=
  let longer := if str1.length > str2.length then str1 else str2
  let shorter := if str1.length > str2.length then str2 else str1
  if longer.length = 0 then 1
  else mkRat ((longer.length : Int) - levenshteinDistance longer.data shorter.data) longer.length

/-! ## Stable sort (model of Array.prototype.sort with a comparator)

JS sort is stable; an element a precedes b in the output when the
comparator returns a negative value on (a, b), and original order is
kept on ties. The predicate le a b below plays the role of
"comparator(a, b) less or equal 0". -/

/-- Stable insertion of x in front of the first y with le x y. -/
def insertLe {α : Type} (le : α → α → Bool) (x : α) : List α → List α
  | [] => [x]
  | y :: ys => if le x y then x :: y :: ys else y :: insertLe le x ys

/-- Stable sort by the boolean relation le. -/
def sortByLe {α : Type} (le : α → α → Bool) : List α → List α
  | [] => []
  | x :: xs => insertLe le x (sortByLe le xs)

theorem perm_insertLe {α : Type} (le : α → α → Bool) (x : α) (l : List α) :
    List.Perm (insertLe le x l) (x :: l) := by
  induction l with
  | nil => simp [insertLe]
  | cons y ys ih =>
    by_cases h : le x y
    · simp [insertLe, h]
    · simp only [insertLe, h, Bool.false_eq_true, if_false]
      exact (ih.cons y).trans (List.Perm.swap x y ys)

theorem perm_sortByLe {α : Type} (le : α → α → Bool) (l : List α) :
    List.Perm (sortByLe le l) l := by
  induction l with
  | nil => exact List.Perm.refl _
  | cons x xs ih => exact (perm_insertLe le x (sortByLe le xs)).trans (ih.cons x)

theorem mem_sortByLe {α : Type} (le : α → α → Bool) (l : List α) (a : α) :
    a ∈ sortByLe le l ↔ a ∈ l :=
  (perm_sortByLe le l).mem_iff

theorem head?_insertLe {α : Type} (le : α → α → Bool) (x : α) (l : List α) :
    (insertLe le x l).head? = some x ∨ (insertLe le x l).head? = l.head? := by
  cases l with
  | nil => left; rfl
  | cons y ys =>
    by_cases h : le x y
    · left; simp [insertLe, h]
    · right; simp [insertLe, h]

theorem chain'_insertLe {α : Type} (le : α → α → Bool)
    (htot : ∀ a b, le a b = true ∨ le b a = true) (x : α) (l : List α)
    (hl : l.Chain' (fun a b => le a b = true)) :
    (insertLe le x l).Chain' (fun a b => le a b = true) := by
  induction l with
  | nil => simp [insertLe]
  | cons y ys ih =>
    rcases List.chain'_cons'.mp hl with ⟨hhead, htail⟩
    by_cases h : le x y
    · simp only [insertLe, h, if_true]
      exact List.chain'_cons.mpr ⟨h, hl⟩
    · simp only [insertLe, h, Bool.false_eq_true, if_false]
      refine List.chain'_cons'.mpr ⟨?_, ih htail⟩
      intro z hz
      rcases head?_insertLe le x ys with h1 | h1
      · rw [h1] at hz
        have hzx : x = z := by simpa using hz
        subst hzx
        rcases htot x y with hxy | hyx
        · exact absurd hxy h
        · exact hyx
      · rw [h1] at hz
        exact hhead z hz

theorem chain'_sortByLe {α : Type} (le : α → α → Bool)
    (htot : ∀ a b, le a b = true ∨ le b a = true) (l : List α) :
    (sortByLe le l).Chain' (fun a b => le a b = true) := by
  induction l with
  | nil => simp [sortByLe]
  | cons x xs ih => exact chain'_insertLe le htot x (sortByLe le xs) ih

/-! ## Data model (src/types/index.ts, fields the core reasons about) -/

/-- Resource scope enum of the CRD metadata. -/
inductive ResScope
  | Namespaced
  | Cluster
deriving DecidableEq

/-- Complexity enum of a sample manifest. -/
inductive Complexity
  | simple
  | intermediate
  | advanced
deriving DecidableEq

/-- CRDMetadata record (src/types/index.ts). -/
structure CRDMetadata where
  group : String
  kind : String
  plural : String
  singular : Option String := none
  shortNames : Option (List String) := none
  scope : ResScope := ResScope.Namespaced
  versions : List String := []
  filePath : String := ""
  description : Option String := none
  category : Option String := none
deriving DecidableEq

/-- SampleManifest record (src/types/index.ts). The parsed YAML payload
(content) is opaque to the core and modelled as a string; of the nested
metadata object only the name is kept (nothing else is read). -/
structure SampleManifest where
  content : String := ""
  apiVersion : String := ""
  kind : String := ""
  metaName : Option String := none
  filePath : String := ""
  description : String := ""
  tags : List String := []
  complexity : Complexity := Complexity.simple
deriving DecidableEq

/-- Frontmatter of an instruction document (fields read by the tools). -/
structure Frontmatter where
  applicableCRDs : Option (List String) := none
  category : Option String := none
  priority : Option Int := none
deriving DecidableEq

/-- InstructionDocument record (src/types/index.ts). -/
structure InstructionDocument where
  title : String := ""
  content : String := ""
  filePath : String := ""
  frontmatter : Frontmatter := {}
  detectedCRDs : List String := []
  tags : List String := []
deriving DecidableEq

/-- LoadedData (src/types/index.ts): the three indexes the tools read.
JS Maps are insertion-ordered association lists. The statistics block is
not read by any query tool and is not modelled. -/
structure LoadedData where
  crds : List (String × CRDMetadata) := []
  samples : List (String × List SampleManifest) := []
  instructions : List InstructionDocument := []
deriving DecidableEq

/-- Tagged result of a tool call (ToolResult in src/types/index.ts),
with the payload typed per tool. -/
structure ToolResultS (α : Type) where
  success : Bool
  data : Option α := none
  error : Option String := none
  suggestions : Option (List String) := none
deriving DecidableEq

/-! ## JS Map operations on the association-list model -/

/-- Model of Map.prototype.get. -/
def mapGet {α : Type} : List (String × α) → String → Option α
  | [], _ => none
  | (k', v) :: rest, k => if k' = k then some v else mapGet rest k

/-- Model of Map.prototype.has. -/
def mapHas {α : Type} (m : List (String × α)) (k : String) : Bool :=
  (mapGet m k).isSome

/-- Model of Map.prototype.set: replace in place when the key exists
(iteration order keeps the original position), append otherwise. -/
def mapSet {α : Type} (m : List (String × α)) (k : String) (v : α) : List (String × α) :=
  if mapHas m k then m.map (fun p => if p.1 = k then (k, v) else p)
  else m ++ [(k, v)]

/-! ## JS truthiness helpers -/

/-- JS truthiness of an optional string argument: undefined and the
empty string are falsy. -/
def optStrTruthy : Option String → Bool
  | none => false
  | some s => !s.isEmpty

/-- The condition (tags undefined or tags.length === 0) of the guidance
tool's validation. -/
def optListBlank {α : Type} : Option (List α) → Bool
  | none => true
  | some l => l.isEmpty

/-- Helper of listDedup carrying the set of already-seen elements. -/
def listDedupAux {α : Type} [DecidableEq α] (seen : List α) : List α → List α
  | [] => []
  | x :: xs => if x ∈ seen then listDedupAux seen xs else x :: listDedupAux (x :: seen) xs

/-- First occurrences, in order: the model of Array.from(new Set(xs)). -/
def listDedup {α : Type} [DecidableEq α] (l : List α) : List α :=
  listDedupAux [] l

/-- JS string-or-default (the idiom value || 'default', where the empty
string is falsy). -/
def jsOrStr (o : Option String) (dflt : String) : String :=
  match o with
  | some s => if s.isEmpty then dflt else s
  | none => dflt

/-! ## BaseTool.findSimilarResources (src/tools/base-tool.ts) -/

/-- Math.max of the three per-definition similarities, computed on the
lower-cased query against the lower-cased kind, group and plural. -/
def maxSimilarity3 (query : String) (crd : CRDMetadata) : ℚ :=
  let kindSimilarity := calculateSimilarity (lowerStr query) (lowerStr crd.kind)
  let groupSimilarity := calculateSimilarity (lowerStr query) (lowerStr crd.group)
  let pluralSimilarity := calculateSimilarity (lowerStr query) (lowerStr crd.plural)
  max kindSimilarity (max groupSimilarity pluralSimilarity)

/-- Candidate keys with their max similarity, kept when above the 0.3
threshold, in CRD-map insertion order. -/
def similarityCandidates (data : LoadedData) (query : String) : List (String × ℚ) :=
  data.crds.filterMap (fun kv =>
    if mkRat 3 10 < maxSimilarity3 query kv.2 then some (kv.1, maxSimilarity3 query kv.2) else none)

/-- Model of BaseTool.findSimilarResources: sort candidates by
similarity descending (comparator b.similarity - a.similarity, which is
non-positive exactly when b.similarity is at most a.similarity), take
the first limit, return the keys. -/
def findSimilarResources (data : LoadedData) (query : String) (limit : Nat) : List String :=
  ((sortByLe (fun a b => decide (b.2 ≤ a.2)) (similarityCandidates data query)).take limit).map
    Prod.fst

/-! ## BaseTool.findRelevantInstructions (src/tools/base-tool.ts) -/

/-- The filter predicate of findRelevantInstructions, including the JS
truthiness of the two optional arguments and the applicableCRDs OR
detectedCRDs fallback. -/
def instrPassesRelevance (inst : InstructionDocument) (resourceType : Option String)
    (tags : Option (List String)) : Bool :=
  let rtHit : Bool :=
    match resourceType with
    | some rt =>
      if rt.isEmpty then false
      else
        let lowerRT := lowerStr rt
        let applicable :=
          match inst.frontmatter.applicableCRDs with
          | some l => l
          | none => inst.detectedCRDs
        applicable.any (fun crd =>
          strIncludes lowerRT (lowerStr crd) || strIncludes (lowerStr crd) lowerRT)
    | none => false
  if rtHit then true
  else
    match tags with
    | some ts =>
      if 0 < ts.length then
        ts.any (fun tag => inst.tags.any (fun iTag =>
          strIncludes (lowerStr iTag) (lowerStr tag) || strIncludes (lowerStr tag) (lowerStr iTag)))
      else false
    | none => !(optStrTruthy resourceType)

/-- The comparator of findRelevantInstructions: priority descending,
then title ascending (localeCompare). -/
def instrCmp (a b : InstructionDocument) : Int :=
  let priorityA := a.frontmatter.priority.getD 0
  let priorityB := b.frontmatter.priority.getD 0
  if priorityA ≠ priorityB then priorityB - priorityA
  else strCmp a.title b.title

/-- Shape of one entry of the instructions output of the base tool. -/
structure InstructionOut where
  title : String
  content : String
  tags : List String
  filePath : String
deriving DecidableEq

/-- The per-instruction output mapping, with the 500-character content
truncation of the source. -/
def instructionOutOf (instruction : InstructionDocument) : InstructionOut :=
  { title := instruction.title
    content := instruction.content.take 500 ++
      (if 500 < instruction.content.length then "..." else "")
    tags := instruction.tags
    filePath := instruction.filePath }

/-- Model of BaseTool.findRelevantInstructions: filter, sort (on the
new array produced by filter), map to the output shape. -/
def findRelevantInstructions (data : LoadedData) (resourceType : Option String)
    (tags : Option (List String)) : List InstructionOut :=
  let relevant := data.instructions.filter (fun i => instrPassesRelevance i resourceType tags)
  (sortByLe (fun a b => decide (instrCmp a b ≤ 0)) relevant).map instructionOutOf

/-! ## FindSamplesTool (src/tools/find-samples-tool.ts) -/

/-- The complexityOrder table of the sample comparator. -/
def complexityOrder : Complexity → Nat
  | Complexity.simple => 0
  | Complexity.intermediate => 1
  | Complexity.advanced => 2

/-- Display name of a complexity (used in suggestion strings). -/
def complexityStr : Complexity → String
  | Complexity.simple => "simple"
  | Complexity.intermediate => "intermediate"
  | Complexity.advanced => "advanced"

/-- The sample comparator: complexity ascending then description
ascending (localeCompare). -/
def sampleCmp (a b : SampleManifest) : Int :=
  let orderA := complexityOrder a.complexity
  let orderB := complexityOrder b.complexity
  if orderA ≠ orderB then (orderA : Int) - (orderB : Int)
  else strCmp a.description b.description

/-- Lookup of the per-kind sample bucket: this.data.samples.get(kind) or []. -/
def samplesGet (data : LoadedData) (kind : String) : List SampleManifest :=
  (mapGet data.samples kind).getD []

/-- The tag filter of the find-samples tool: some query tag is a
lower-cased substring of some sample tag. -/
def sampleMatchesTags (tags : List String) (sample : SampleManifest) : Bool :=
  tags.any (fun tag => sample.tags.any (fun sampleTag =>
    strIncludes (lowerStr sampleTag) (lowerStr tag)))

/-- The two sequential filters of FindSamplesTool.execute. The tag
filter only runs when tags is a non-empty array, as in the source. -/
def filterSamples (allSamples : List SampleManifest) (complexity : Option Complexity)
    (tags : Option (List String)) : List SampleManifest :=
  let f1 :=
    match complexity with
    | some c => allSamples.filter (fun sample => sample.complexity = c)
    | none => allSamples
  match tags with
  | some ts => if 0 < ts.length then f1.filter (fun s => sampleMatchesTags ts s) else f1
  | none => f1

/-- Whether filteredSamples is still the stored bucket itself (no filter
produced a copy), in which case the in-place sort mutates the store. -/
def samplesAliased (complexity : Option Complexity) (tags : Option (List String)) : Bool :=
  complexity.isNone && (match tags with | none => true | some ts => ts.isEmpty)

/-- Model of FindSamplesTool.findAlternativeKinds. -/
def findAlternativeKinds (data : LoadedData) (kind : String) : List String :=
  let availableKinds := data.samples.map Prod.fst
  if availableKinds.isEmpty then ["No sample manifests are available in the data directory"]
  else
    let scored := availableKinds.map (fun k => (k, calculateSimilarity (lowerStr kind) (lowerStr k)))
    let similar := ((sortByLe (fun a b => decide (b.2 ≤ a.2))
      (scored.filter (fun item => mkRat 3 10 < item.2))).take 5).map Prod.fst
    (if similar.isEmpty then []
     else ["Did you mean one of these: " ++ String.intercalate ", " similar ++ "?"]) ++
    ["Available kinds with samples: " ++ String.intercalate ", " availableKinds]

/-- Arguments of the find-samples tool. An absent or non-string kind is
modelled as none. There is no limit argument in the source. -/
structure FindSamplesArgs where
  kind : Option String := none
  complexity : Option Complexity := none
  tags : Option (List String) := none
  includeContent : Bool := true
deriving DecidableEq

/-- One entry of the samples output array. -/
structure SampleOut where
  description : String
  complexity : Complexity
  tags : List String
  apiVersion : String
  filePath : String
  metaName : Option String := none
  content : Option String := none
deriving DecidableEq

/-- The data payload of a successful find-samples call. -/
structure FindSamplesData where
  kind : String
  totalSamples : Nat
  filteredCount : Nat
  samples : List SampleOut
  availableComplexities : List Complexity
  availableTags : List String
deriving DecidableEq

/-- Per-sample output mapping of the find-samples tool. -/
def sampleOutOf (includeContent : Bool) (sample : SampleManifest) : SampleOut :=
  { description := sample.description
    complexity := sample.complexity
    tags := sample.tags
    apiVersion := sample.apiVersion
    filePath := sample.filePath
    metaName := sample.metaName
    content := if includeContent then some sample.content else none }

/-- Model of FindSamplesTool.execute. Because the source sorts
filteredSamples in place and filteredSamples is the stored bucket when
no filter applied, the call returns the possibly-mutated loaded data
alongside the result. The generateSampleSuggestions strings and the
loadedAt metadata are not modelled. -/
def executeFindSamples (data : LoadedData) (args : FindSamplesArgs) :
    ToolResultS FindSamplesData × LoadedData :=
  let missingKind : ToolResultS FindSamplesData :=
    { success := false
      error := some "kind is required and must be a string"
      suggestions := some ["Use \"list-available-resources\" to see available resource kinds"] }
  match args.kind with
  | none => (missingKind, data)
  | some kind =>
    if kind.isEmpty then (missingKind, data)
    else
      let allSamples := samplesGet data kind
      if allSamples.isEmpty then
        ({ success := false
           error := some ("No samples found for resource kind \"" ++ kind ++ "\"")
           suggestions := some (findAlternativeKinds data kind) }, data)
      else
        let filteredSamples := filterSamples allSamples args.complexity args.tags
        if filteredSamples.isEmpty then
          ({ success := false
             error := some ("No samples found for \"" ++ kind ++ "\" with the specified filters")
             suggestions := some ["Try removing some filters",
               toString allSamples.length ++ " total samples available for " ++ kind,
               "Available complexities: " ++ String.intercalate ", "
                 ((listDedup (allSamples.map (fun s => s.complexity))).map complexityStr)] },
           data)
        else
          let sortedSamples := sortByLe (fun a b => decide (sampleCmp a b ≤ 0)) filteredSamples
          let aliased := samplesAliased args.complexity args.tags
          let dataAfter :=
            if aliased then { data with samples := mapSet data.samples kind sortedSamples }
            else data
          let allAfter := if aliased then sortedSamples else allSamples
          ({ success := true
             data := some
               { kind := kind
                 totalSamples := allAfter.length
                 filteredCount := sortedSamples.length
                 samples := sortedSamples.map (sampleOutOf args.includeContent)
                 availableComplexities := listDedup (allAfter.map (fun s => s.complexity))
                 availableTags := listDedup (allAfter.flatMap (fun s => s.tags)) }
             suggestions := none }, dataAfter)

/-! ## ResourceGuidanceTool (src/tools/resource-guidance-tool.ts) -/

/-- The concatenated declared-plus-detected kind list used by the
guidance tool's filter and scoring. -/
def applicableCRDsAll (inst : InstructionDocument) : List String :=
  inst.frontmatter.applicableCRDs.getD [] ++ inst.detectedCRDs

/-- The resourceType filter of findGuidance: bidirectional lower-cased
substring match against declared/detected kinds, or a content match. -/
def guidancePassesResourceType (inst : InstructionDocument) (resourceType : String) : Bool :=
  let lowerRT := lowerStr resourceType
  let kindMatches := (applicableCRDsAll inst).any (fun crd =>
    strIncludes (lowerStr crd) lowerRT || strIncludes lowerRT (lowerStr crd))
  let contentMatches := strIncludes (lowerStr inst.content) lowerRT
  kindMatches || contentMatches

/-- The category filter of findGuidance: frontmatter category equality,
or exact membership of the category string in the tag list. -/
def guidancePassesCategory (inst : InstructionDocument) (category : String) : Bool :=
  inst.frontmatter.category == some category || inst.tags.contains category

/-- The tags filter of findGuidance: bidirectional lower-cased substring
overlap between some query tag and some document tag. -/
def guidancePassesTags (inst : InstructionDocument) (ts : List String) : Bool :=
  ts.any (fun tag => inst.tags.any (fun iTag =>
    strIncludes (lowerStr iTag) (lowerStr tag) || strIncludes (lowerStr tag) (lowerStr iTag)))

/-- Count of query tags some document tag lower-case-contains (the
matchingTags of the scoring phase; one direction only, unlike the
filter). -/
def matchingTagCount (inst : InstructionDocument) (ts : List String) : Nat :=
  (ts.filter (fun tag => inst.tags.any (fun iTag =>
    strIncludes (lowerStr iTag) (lowerStr tag)))).length

/-- Model of ResourceGuidanceTool.calculateRelevanceScore, following the
source's sequential score accumulation and its truthiness guards. -/
def calculateRelevanceScore (inst : InstructionDocument) (resourceType category : Option String)
    (tags : Option (List String)) : Int :=
  let score0 : Int := inst.frontmatter.priority.getD 0 * 10
  let score1 :=
    match resourceType with
    | some rt =>
      if rt.isEmpty then score0
      else
        let lowerRT := lowerStr rt
        let s :=
          if (applicableCRDsAll inst).any (fun crd => strIncludes (lowerStr crd) lowerRT) then
            score0 + 20
          else score0
        if strIncludes (lowerStr inst.title) lowerRT then s + 15 else s
    | none => score0
  let score2 :=
    match category with
    | some c =>
      if !c.isEmpty && inst.frontmatter.category == some c then score1 + 15 else score1
    | none => score1
  match tags with
  | some ts => score2 + (matchingTagCount inst ts : Int) * 5
  | none => score2

/-- A document together with its computed relevanceScore (the source
spreads the instruction record and adds relevanceScore). -/
structure ScoredInstruction where
  inst : InstructionDocument
  relevanceScore : Int
deriving DecidableEq

/-- The findGuidance comparator: priority descending, then
relevanceScore descending. -/
def guidCmp (a b : ScoredInstruction) : Int :=
  let priorityA := a.inst.frontmatter.priority.getD 0
  let priorityB := b.inst.frontmatter.priority.getD 0
  if priorityA ≠ priorityB then priorityB - priorityA
  else b.relevanceScore - a.relevanceScore

/-- Model of ResourceGuidanceTool.findGuidance: the three optional
filters (each guarded by JS truthiness), scoring, the two-level sort,
and truncation to limit after sorting. -/
def findGuidance (data : LoadedData) (resourceType category : Option String)
    (tags : Option (List String)) (limit : Nat) : List ScoredInstruction :=
  let r1 :=
    match resourceType with
    | some rt =>
      if rt.isEmpty then data.instructions
      else data.instructions.filter (fun i => guidancePassesResourceType i rt)
    | none => data.instructions
  let r2 :=
    match category with
    | some c => if c.isEmpty then r1 else r1.filter (fun i => guidancePassesCategory i c)
    | none => r1
  let r3 :=
    match tags with
    | some ts => if 0 < ts.length then r2.filter (fun i => guidancePassesTags i ts) else r2
    | none => r2
  let scored := r3.map (fun i =>
    ScoredInstruction.mk i (calculateRelevanceScore i resourceType category tags))
  (sortByLe (fun a b => decide (guidCmp a b ≤ 0)) scored).take limit

/-- Arguments of the guidance tool; limit is resolved to 10 when the
caller does not supply it. -/
structure GuidanceArgs where
  resourceType : Option String := none
  category : Option String := none
  tags : Option (List String) := none
  limit : Option Nat := none
deriving DecidableEq

/-- One entry of the guidance output array. Note the output's
applicableCRDs uses declared OR detected (a fallback), not the
concatenation the filter uses. -/
structure GuidanceOut where
  title : String
  content : String
  tags : List String
  applicableCRDs : List String
  category : Option String
  priority : Int
  filePath : String
deriving DecidableEq

/-- The data payload of a successful guidance call. The
relatedResources and bestPractices blocks are not modelled. -/
structure GuidanceData where
  criteriaResourceType : Option String
  criteriaCategory : Option String
  criteriaTags : Option (List String)
  guidanceCount : Nat
  totalAvailable : Nat
  guidance : List GuidanceOut
deriving DecidableEq

/-- Per-document output mapping of the guidance tool. -/
def guidanceOutOf (doc : ScoredInstruction) : GuidanceOut :=
  { title := doc.inst.title
    content := doc.inst.content
    tags := doc.inst.tags
    applicableCRDs :=
      match doc.inst.frontmatter.applicableCRDs with
      | some l => l
      | none => doc.inst.detectedCRDs
    category := doc.inst.frontmatter.category
    priority := doc.inst.frontmatter.priority.getD 0
    filePath := doc.inst.filePath }

/-- The validation failure returned when none of resourceType, category
and tags is supplied. -/
def emptyQueryFailure : ToolResultS GuidanceData :=
  { success := false
    error := some "At least one of resourceType, category, or tags must be provided"
    suggestions := some
      ["Use resourceType for specific resource guidance (e.g., \"RedisCluster\")",
       "Use category for broader guidance (e.g., \"database\")",
       "Use tags for specific topics (e.g., [\"production\", \"security\"])"] }

/-- Model of ResourceGuidanceTool.execute. The suggestion strings of the
no-results branch (generateNoResultsSuggestions) and of the success
branch are not modelled. -/
def executeGuidance (data : LoadedData) (args : GuidanceArgs) : ToolResultS GuidanceData :=
  let limit := args.limit.getD 10
  if !(optStrTruthy args.resourceType) && !(optStrTruthy args.category) && optListBlank args.tags
  then emptyQueryFailure
  else
    let guidance := findGuidance data args.resourceType args.category args.tags limit
    if guidance.isEmpty then
      { success := false
        error := some "No guidance documents found matching the criteria"
        suggestions := none }
    else
      { success := true
        data := some
          { criteriaResourceType := args.resourceType
            criteriaCategory := args.category
            criteriaTags := args.tags
            guidanceCount := guidance.length
            totalAvailable := data.instructions.length
            guidance := guidance.map guidanceOutOf }
        suggestions := none }

/-! ## ResourceDetailsTool (src/tools/resource-details-tool.ts) -/

/-- The metadata block of the details payload. -/
structure DetailsMetadata where
  kind : String
  group : String
  plural : String
  singular : Option String
  shortNames : List String
  scope : ResScope
  versions : List String
  category : String
  description : String
  filePath : String
deriving DecidableEq

/-- The data payload of a successful details call. The samples are kept
as the raw bucket (the per-sample truncation mapping is not modelled);
relatedResources, usageExamples and bestPractices are not modelled. -/
structure DetailsData where
  resourceType : String
  metadata : DetailsMetadata
  samples : List SampleManifest
  instructions : List InstructionOut
deriving DecidableEq

/-- The metadata mapping of the details tool, with the JS || defaults. -/
def detailsMetadataOf (crd : CRDMetadata) : DetailsMetadata :=
  { kind := crd.kind
    group := crd.group
    plural := crd.plural
    singular := crd.singular
    shortNames := crd.shortNames.getD []
    scope := crd.scope
    versions := crd.versions
    category := jsOrStr crd.category "uncategorized"
    description := jsOrStr crd.description ("Custom resource of type " ++ crd.kind)
    filePath := crd.filePath }

/-- Model of ResourceDetailsTool.execute. Resolution is a single exact
composite-key Map.get; on a miss the fuzzy suggestions are attached to
the error. -/
def executeDetails (data : LoadedData) (resourceType : Option String) :
    ToolResultS DetailsData :=
  let missingErr : ToolResultS DetailsData :=
    { success := false
      error := some "resourceType is required and must be a string in format \"group/kind\""
      suggestions := some ["Use \"list-available-resources\" to see all available resource types"] }
  match resourceType with
  | none => missingErr
  | some rt =>
    if rt.isEmpty then missingErr
    else
      match mapGet data.crds rt with
      | none =>
        let similar := findSimilarResources data rt 5
        { success := false
          error := some ("Resource type \"" ++ rt ++ "\" not found")
          suggestions := some
            (if !similar.isEmpty then
              ["Did you mean: " ++ String.intercalate ", " similar ++ "?"]
             else ["Use \"list-available-resources\" to see all available resource types"]) }
      | some crd =>
        let samples := samplesGet data crd.kind
        let instructions :=
          findRelevantInstructions data (some crd.kind) (some [jsOrStr crd.category ""])
        { success := true
          data := some
            { resourceType := rt
              metadata := detailsMetadataOf crd
              samples := samples
              instructions := instructions.take 5 }
          suggestions := none }

/-! ## CRDLoader duplicate handling (src/loaders/crd-loader.ts) -/

/-- Model of generateResourceKey in src/utils/helpers.ts. -/
def generateResourceKey (group kind : String) : String := group ++ "/" ++ kind

/-- Composite key of one metadata record. -/
def crdKeyOf (m : CRDMetadata) : String := generateResourceKey m.group m.kind

/-- One iteration of the CRD loading loop: a duplicate key records a
warning, then the key is set (last write wins); neither case fails. -/
def loadCRDsStep (acc : List (String × CRDMetadata) × List String) (crdMetadata : CRDMetadata) :
    List (String × CRDMetadata) × List String :=
  let key := crdKeyOf crdMetadata
  let warnings :=
    if mapHas acc.1 key then
      acc.2 ++ ["Duplicate CRD found: " ++ key ++ " (" ++ crdMetadata.filePath ++ ")"]
    else acc.2
  (mapSet acc.1 key crdMetadata, warnings)

/-- Model of the index-building core of CRDLoader.loadCRDs, over the
already-extracted metadata records in file order (file discovery,
YAML parsing and metadata extraction happen before this loop). -/
def loadCRDs (docs : List CRDMetadata) : List (String × CRDMetadata) × List String :=
  docs.foldl loadCRDsStep ([], [])

/-! ## Comparator facts -/

theorem guidCmp_total (a b : ScoredInstruction) : guidCmp a b ≤ 0 ∨ guidCmp b a ≤ 0 := by
  unfold guidCmp
  dsimp only
  split_ifs <;> omega

theorem guidCmp_le_iff (a b : ScoredInstruction) :
    guidCmp a b ≤ 0 ↔
      (b.inst.frontmatter.priority.getD 0 < a.inst.frontmatter.priority.getD 0 ∨
       (a.inst.frontmatter.priority.getD 0 = b.inst.frontmatter.priority.getD 0 ∧
        b.relevanceScore ≤ a.relevanceScore)) := by
  unfold guidCmp
  dsimp only
  split_ifs <;> omega

theorem sampleCmp_total (a b : SampleManifest) : sampleCmp a b ≤ 0 ∨ sampleCmp b a ≤ 0 := by
  unfold sampleCmp
  dsimp only
  split_ifs <;> first | omega | exact strCmp_total a.description b.description

theorem sampleCmp_le_iff (a b : SampleManifest) :
    sampleCmp a b ≤ 0 ↔
      (complexityOrder a.complexity < complexityOrder b.complexity ∨
       (complexityOrder a.complexity = complexityOrder b.complexity ∧
        strCmp a.description b.description ≤ 0)) := by
  unfold sampleCmp
  dsimp only
  split_ifs with h
  · constructor
    · intro hle; left; omega
    · rintro (hlt | ⟨heq, _⟩)
      · omega
      · exact absurd heq h
  · constructor
    · intro hs; right; exact ⟨by omega, hs⟩
    · rintro (hlt | ⟨_, hs⟩)
      · omega
      · exact hs

theorem instrCmp_total (a b : InstructionDocument) : instrCmp a b ≤ 0 ∨ instrCmp b a ≤ 0 := by
  unfold instrCmp
  dsimp only
  split_ifs <;> first | omega | exact strCmp_total a.title b.title

/-- Totality of the decide form of an integer comparator. -/
theorem decide_cmp_total {α : Type} (cmp : α → α → Int)
    (h : ∀ a b, cmp a b ≤ 0 ∨ cmp b a ≤ 0) (a b : α) :
    decide (cmp a b ≤ 0) = true ∨ decide (cmp b a ≤ 0) = true := by
  rcases h a b with h' | h' <;> simp [h']

/-- Totality of the similarity comparator (b.similarity - a.similarity). -/
theorem simLe_total {β : Type} (a b : β × ℚ) :
    decide (b.2 ≤ a.2) = true ∨ decide (a.2 ≤ b.2) = true := by
  rcases le_total b.2 a.2 with h | h <;> simp [h]

/-! ## Map lemmas -/

theorem mapGet_map_replace {α : Type} (m : List (String × α)) (k : String) (v : α) :
    mapGet (m.map (fun p => if p.1 = k then (k, v) else p)) k =
      if (mapGet m k).isSome then some v else none := by
  induction m with
  | nil => rfl
  | cons p rest ih =>
    simp only [List.map_cons]
    by_cases h : p.1 = k
    · rw [if_pos h]
      simp [mapGet, h]
    · rw [if_neg h]
      simp only [mapGet, h, if_false]
      rw [ih]

theorem mapGet_map_replace_ne {α : Type} (m : List (String × α)) (k k' : String) (v : α)
    (h : k' ≠ k) :
    mapGet (m.map (fun p => if p.1 = k then (k, v) else p)) k' = mapGet m k' := by
  induction m with
  | nil => rfl
  | cons p rest ih =>
    simp only [List.map_cons]
    by_cases hp : p.1 = k
    · rw [if_pos hp]
      have hk : ¬k = k' := fun hh => h hh.symm
      have hpk : ¬p.1 = k' := by rw [hp]; exact hk
      simp only [mapGet, hk, hpk, if_false]
      exact ih
    · rw [if_neg hp]
      by_cases hpk : p.1 = k'
      · simp only [mapGet, hpk, if_true]
      · simp only [mapGet, hpk, if_false]
        exact ih

theorem mapGet_append_single {α : Type} (m : List (String × α)) (k : String) (v : α)
    (h : mapGet m k = none) : mapGet (m ++ [(k, v)]) k = some v := by
  induction m with
  | nil => simp [mapGet]
  | cons p rest ih =>
    by_cases hp : p.1 = k
    · simp [mapGet, hp] at h
    · simp only [mapGet, hp, if_false] at h
      simp only [List.cons_append, mapGet, hp, if_false]
      exact ih h

theorem mapGet_append_single_ne {α : Type} (m : List (String × α)) (k k' : String) (v : α)
    (h : k' ≠ k) : mapGet (m ++ [(k, v)]) k' = mapGet m k' := by
  induction m with
  | nil =>
    have hk : ¬k = k' := fun hh => h hh.symm
    simp [mapGet, hk]
  | cons p rest ih =>
    by_cases hp : p.1 = k'
    · simp only [List.cons_append, mapGet, hp, if_true]
    · simp only [List.cons_append, mapGet, hp, if_false]
      exact ih

theorem mapGet_mapSet_self {α : Type} (m : List (String × α)) (k : String) (v : α) :
    mapGet (mapSet m k v) k = some v := by
  unfold mapSet mapHas
  by_cases h : (mapGet m k).isSome
  · rw [if_pos h, mapGet_map_replace, if_pos h]
  · rw [if_neg h]
    refine mapGet_append_single m k v ?_
    cases hm : mapGet m k
    · rfl
    · exact absurd (by simp [hm]) h

theorem mapGet_mapSet_ne {α : Type} (m : List (String × α)) (k k' : String) (v : α)
    (h : k' ≠ k) : mapGet (mapSet m k v) k' = mapGet m k' := by
  unfold mapSet
  by_cases hh : mapHas m k
  · rw [if_pos hh]
    exact mapGet_map_replace_ne m k k' v h
  · rw [if_neg hh]
    exact mapGet_append_single_ne m k k' v h

theorem length_mapSet {α : Type} (m : List (String × α)) (k : String) (v : α) :
    (mapSet m k v).length = if mapHas m k then m.length else m.length + 1 := by
  unfold mapSet
  by_cases h : mapHas m k <;> simp [h]

/-! ## Loader lemmas -/

theorem loadCRDsStep_fst (acc : List (String × CRDMetadata) × List String) (d : CRDMetadata) :
    (loadCRDsStep acc d).1 = mapSet acc.1 (crdKeyOf d) d := rfl

theorem loadCRDs_fold_lookup (docs : List CRDMetadata) :
    ∀ (m : List (String × CRDMetadata)) (w : List String) (key : String),
    mapGet (docs.foldl loadCRDsStep (m, w)).1 key =
      (match (docs.filter (fun d => crdKeyOf d == key)).getLast? with
       | some v => some v
       | none => mapGet m key) := by
  induction docs with
  | nil => intro m w key; rfl
  | cons d ds ih =>
    intro m w key
    simp only [List.foldl_cons, List.filter_cons]
    by_cases hk : crdKeyOf d = key
    · rw [if_pos (by simpa using hk), List.getLast?_cons]
      have hstep : (loadCRDsStep (m, w) d).1 = mapSet m (crdKeyOf d) d := rfl
      cases hacc : loadCRDsStep (m, w) d with
      | mk m' w' =>
        have hm' : m' = mapSet m (crdKeyOf d) d := by
          have := hstep
          rw [hacc] at this
          exact this
        rw [ih m' w' key]
        cases hl : (List.filter (fun d => crdKeyOf d == key) ds).getLast? with
        | some v => simp
        | none =>
          simp only [Option.getD_none]
          rw [hm', hk]
          exact mapGet_mapSet_self m key d
    · rw [if_neg (by simpa using hk)]
      cases hacc : loadCRDsStep (m, w) d with
      | mk m' w' =>
        have hm' : m' = mapSet m (crdKeyOf d) d := by
          have := loadCRDsStep_fst (m, w) d
          rw [hacc] at this
          exact this
        rw [ih m' w' key]
        cases hl : (List.filter (fun d => crdKeyOf d == key) ds).getLast? with
        | some v => rfl
        | none =>
          rw [hm']
          exact mapGet_mapSet_ne m (crdKeyOf d) key d (fun hh => hk hh.symm)

theorem loadCRDsStep_eq (acc : List (String × CRDMetadata) × List String) (d : CRDMetadata) :
    loadCRDsStep acc d =
      (mapSet acc.1 (crdKeyOf d) d,
       if mapHas acc.1 (crdKeyOf d) then
         acc.2 ++ ["Duplicate CRD found: " ++ crdKeyOf d ++ " (" ++ d.filePath ++ ")"]
       else acc.2) := rfl

theorem loadCRDs_fold_length (docs : List CRDMetadata) :
    ∀ (m : List (String × CRDMetadata)) (w : List String),
    (docs.foldl loadCRDsStep (m, w)).1.length + (docs.foldl loadCRDsStep (m, w)).2.length =
      m.length + w.length + docs.length := by
  induction docs with
  | nil => intro m w; simp
  | cons d ds ih =>
    intro m w
    rw [List.foldl_cons, loadCRDsStep_eq]
    by_cases h : mapHas m (crdKeyOf d)
    · rw [if_pos h, ih]
      rw [length_mapSet, if_pos h, List.length_append]
      simp only [List.length_cons, List.length_nil]
      omega
    · rw [if_neg h, ih]
      rw [length_mapSet, if_neg h]
      simp only [List.length_cons]
      omega

/-! ## Spec-side definitions (stated from the specification's words, for
comparison against the source-derived definitions) -/

/-- Spec formula: 20 when any declared or detected kind
case-insensitively contains the supplied resourceType. -/
def specKindBonus (inst : InstructionDocument) (resourceType : Option String) : Int :=
  match resourceType with
  | some rt =>
    if !rt.isEmpty && (applicableCRDsAll inst).any (fun crd =>
        strIncludes (lowerStr crd) (lowerStr rt)) then 20 else 0
  | none => 0

/-- Spec formula: 15 when the title case-insensitively contains the
supplied resourceType. -/
def specTitleBonus (inst : InstructionDocument) (resourceType : Option String) : Int :=
  match resourceType with
  | some rt => if !rt.isEmpty && strIncludes (lowerStr inst.title) (lowerStr rt) then 15 else 0
  | none => 0

/-- Spec formula: 15 when the document category equals the supplied
query category. -/
def specCategoryBonus (inst : InstructionDocument) (category : Option String) : Int :=
  match category with
  | some c => if !c.isEmpty && inst.frontmatter.category == some c then 15 else 0
  | none => 0

/-- Spec formula: 5 per query tag matching a document tag. -/
def specTagBonus (inst : InstructionDocument) (tags : Option (List String)) : Int :=
  match tags with
  | some ts => 5 * (matchingTagCount inst ts : Int)
  | none => 0

/-- Spec formula for the relevance score: priority times ten plus the
four independent additive bonuses. -/
def specRelevanceScore (inst : InstructionDocument) (resourceType category : Option String)
    (tags : Option (List String)) : Int :=
  inst.frontmatter.priority.getD 0 * 10 + specKindBonus inst resourceType +
    specTitleBonus inst resourceType + specCategoryBonus inst category + specTagBonus inst tags

/-- Spec description of the fuzzy fallback: sort candidates descending
by similarity with ties broken by kind lexical order, then top 5. -/
def specFuzzySuggestions (data : LoadedData) (query : String) : List String :=
  let candidates := data.crds.filterMap (fun kv =>
    if mkRat 3 10 < maxSimilarity3 query kv.2 then
      some (kv.1, kv.2.kind, maxSimilarity3 query kv.2)
    else none)
  ((sortByLe (fun a b =>
      if a.2.2 = b.2.2 then decide (strCmp a.2.1 b.2.1 ≤ 0) else decide (b.2.2 ≤ a.2.2))
    candidates).take 5).map (fun t => t.1)

/-! ## Concrete fixtures used by the theorems below -/

/-- A definition with a short alias, from the spec's end-to-end
scenario. -/
def webAppCRD : CRDMetadata :=
  { group := "example.com", kind := "WebApp", plural := "webapps",
    singular := some "webapp", shortNames := some ["wa"],
    scope := ResScope.Namespaced, versions := ["v1"], filePath := "crds/webapp.yaml" }

/-- An index holding exactly the WebApp definition. -/
def dataWebApp : LoadedData := { crds := [("example.com/WebApp", webAppCRD)] }

/-- An advanced sample, loaded before the simple one. -/
def sampleAdvanced : SampleManifest :=
  { content := "spec: advanced", apiVersion := "example.com/v1", kind := "WebApp",
    filePath := "samples/webapp-advanced.yaml", description := "Advanced example",
    tags := ["production"], complexity := Complexity.advanced }

/-- A simple sample, loaded after the advanced one. -/
def sampleSimple : SampleManifest :=
  { content := "spec: simple", apiVersion := "example.com/v1", kind := "WebApp",
    filePath := "samples/webapp-simple.yaml", description := "Simple example",
    tags := ["simple"], complexity := Complexity.simple }

/-- Loaded data whose WebApp bucket is in [advanced, simple] order. -/
def dataSamplePair : LoadedData := { samples := [("WebApp", [sampleAdvanced, sampleSimple])] }

/-- A minimal simple sample distinguished only by its description. -/
def mkPlainSample (d : String) : SampleManifest :=
  { content := "c", apiVersion := "v1", kind := "W", filePath := "f", description := d,
    tags := [], complexity := Complexity.simple }

/-- A bucket of eleven samples of one kind. -/
def dataElevenSamples : LoadedData :=
  { samples := [("W",
      [mkPlainSample "a", mkPlainSample "b", mkPlainSample "c", mkPlainSample "d",
       mkPlainSample "e", mkPlainSample "f", mkPlainSample "g", mkPlainSample "h",
       mkPlainSample "i", mkPlainSample "j", mkPlainSample "k"])] }

/-- Twenty pairwise substring-free tags. -/
def tagsTwenty : List String :=
  ["aa", "bb", "cc", "dd", "ee", "ff", "gg", "hh", "ii", "jj",
   "kk", "ll", "mm", "nn", "oo", "pp", "qq", "rr", "ss", "tt"]

/-- High-priority document matching only one query tag. -/
def docPinned : InstructionDocument :=
  { title := "Pinned guide", content := "", filePath := "a.md",
    frontmatter := { priority := some 10 }, detectedCRDs := [], tags := ["aa"] }

/-- Low-priority document matching all twenty query tags. -/
def docRelevant : InstructionDocument :=
  { title := "Relevant guide", content := "", filePath := "b.md",
    frontmatter := { priority := some 1 }, detectedCRDs := [], tags := tagsTwenty }

/-- Corpus of the two documents above. -/
def dataTwoGuides : LoadedData := { instructions := [docPinned, docRelevant] }

/-- Definition of kind caz, inserted first. -/
def crdCaz : CRDMetadata :=
  { group := "g1", kind := "caz", plural := "cazs", scope := ResScope.Namespaced,
    versions := ["v1"], filePath := "caz.yaml" }

/-- Definition of kind cay, inserted second; cay sorts before caz
lexically and both are equally similar to the query cat. -/
def crdCay : CRDMetadata :=
  { group := "g2", kind := "cay", plural := "cays", scope := ResScope.Namespaced,
    versions := ["v1"], filePath := "cay.yaml" }

/-- Index with a similarity tie between caz (first) and cay (second). -/
def dataTieBreak : LoadedData := { crds := [("g1/caz", crdCaz), ("g2/cay", crdCay)] }

/-- A guidance document applicable to TestResource. -/
def docTestGuide : InstructionDocument :=
  { title := "Test Resource Guide", content := "How to use TestResource", filePath := "t.md",
    frontmatter := { applicableCRDs := some ["TestResource"], category := some "service",
                     priority := some 1 },
    detectedCRDs := ["testresource"], tags := ["test"] }

/-- Corpus of the one guidance document above. -/
def dataOneGuide : LoadedData := { instructions := [docTestGuide] }

/-- A document that earns every scoring bonus at once. -/
def docScoring : InstructionDocument :=
  { title := "Redis operations guide", content := "Operating Redis", filePath := "r.md",
    frontmatter := { applicableCRDs := some ["RedisCluster"], category := some "database",
                     priority := some 2 },
    detectedCRDs := [], tags := ["aa", "bb"] }

/-- First CRD of a duplicate-key pair. -/
def crdDupFirst : CRDMetadata :=
  { group := "example.com", kind := "WebApp", plural := "webapps",
    scope := ResScope.Namespaced, versions := ["v1"], filePath := "crds/a.yaml" }

/-- Second CRD with the same composite key. -/
def crdDupSecond : CRDMetadata :=
  { group := "example.com", kind := "WebApp", plural := "webapps",
    scope := ResScope.Cluster, versions := ["v2"], filePath := "crds/b.yaml" }

/-! ## Claim theorems -/

/-- C1: the claim states resolution of a user-supplied resource string
falls back from the exact composite key to exact kind, case-insensitive
kind and short-alias matches, so that resolving wa and webapp against an
index holding only example.com/WebApp returns the WebApp definition.
The code has no such layers: ResourceDetailsTool.execute performs a
single exact Map.get, so wa and webapp are misses (with fuzzy
suggestions) and only the exact composite key resolves. This theorem
evaluates the embedded tool at exactly those inputs. -/
theorem claim_C1_exact_lookup_only :
    (executeDetails dataWebApp (some "wa")).success = false ∧
    (executeDetails dataWebApp (some "wa")).error =
      some "Resource type \"wa\" not found" ∧
    (executeDetails dataWebApp (some "webapp")).success = false ∧
    (executeDetails dataWebApp (some "example.com/WebApp")).success = true ∧
    ((executeDetails dataWebApp (some "example.com/WebApp")).data.map
      (fun d => d.metadata.kind)) = some "WebApp" := by
  refine ⟨by decide, by decide, by decide, by decide, by decide⟩

/-- C2 counterexample: FindSamplesTool has no limit argument and never
truncates: on a bucket of eleven passing samples and a call that
supplies no limit, the output holds all eleven samples, not the ten the
claim's default-limit truncation would allow. -/
theorem claim_C2_counterexample :
    ((executeFindSamples dataElevenSamples { kind := some "W" }).1.data.map
      (fun d => d.samples.length)) = some 11 ∧ ¬(11 ≤ 10) := by
  refine ⟨by decide, by decide⟩

/-- C2 amended: for every call on a non-empty kind bucket whose filters
leave at least one sample, the returned sequence is exactly the samples
of that kind passing the complexity-equality and tag-overlap filters,
sorted by complexity ascending then description ascending — with no
truncation and no limit parameter (the whole filtered list is
returned). -/
theorem claim_C2_filter_sort_no_truncation (data : LoadedData) (kind : String)
    (complexity : Option Complexity) (tags : Option (List String)) (includeContent : Bool)
    (hk : kind.isEmpty = false)
    (h1 : (samplesGet data kind).isEmpty = false)
    (h2 : (filterSamples (samplesGet data kind) complexity tags).isEmpty = false) :
    (executeFindSamples data
      { kind := some kind, complexity := complexity, tags := tags,
        includeContent := includeContent }).1.success = true ∧
    ((executeFindSamples data
      { kind := some kind, complexity := complexity, tags := tags,
        includeContent := includeContent }).1.data.map (fun d => d.samples)) =
      some ((sortByLe (fun a b => decide (sampleCmp a b ≤ 0))
        (filterSamples (samplesGet data kind) complexity tags)).map
          (sampleOutOf includeContent)) ∧
    ((executeFindSamples data
      { kind := some kind, complexity := complexity, tags := tags,
        includeContent := includeContent }).1.data.map (fun d => d.samples.length)) =
      some (filterSamples (samplesGet data kind) complexity tags).length ∧
    List.Perm (sortByLe (fun a b => decide (sampleCmp a b ≤ 0))
        (filterSamples (samplesGet data kind) complexity tags))
      (filterSamples (samplesGet data kind) complexity tags) ∧
    (sortByLe (fun a b => decide (sampleCmp a b ≤ 0))
        (filterSamples (samplesGet data kind) complexity tags)).Chain' (fun a b =>
      complexityOrder a.complexity < complexityOrder b.complexity ∨
      (complexityOrder a.complexity = complexityOrder b.complexity ∧
       strCmp a.description b.description ≤ 0)) := by
  have hres : (executeFindSamples data
      { kind := some kind, complexity := complexity, tags := tags,
        includeContent := includeContent }).1 =
      { success := true
        data := some
          { kind := kind
            totalSamples := (if samplesAliased complexity tags then
                sortByLe (fun a b => decide (sampleCmp a b ≤ 0))
                  (filterSamples (samplesGet data kind) complexity tags)
              else samplesGet data kind).length
            filteredCount := (sortByLe (fun a b => decide (sampleCmp a b ≤ 0))
              (filterSamples (samplesGet data kind) complexity tags)).length
            samples := (sortByLe (fun a b => decide (sampleCmp a b ≤ 0))
              (filterSamples (samplesGet data kind) complexity tags)).map
                (sampleOutOf includeContent)
            availableComplexities := listDedup ((if samplesAliased complexity tags then
                sortByLe (fun a b => decide (sampleCmp a b ≤ 0))
                  (filterSamples (samplesGet data kind) complexity tags)
              else samplesGet data kind).map (fun s => s.complexity))
            availableTags := listDedup ((if samplesAliased complexity tags then
                sortByLe (fun a b => decide (sampleCmp a b ≤ 0))
                  (filterSamples (samplesGet data kind) complexity tags)
              else samplesGet data kind).flatMap (fun s => s.tags)) }
        suggestions := none } := by
    unfold executeFindSamples
    dsimp only
    rw [hk]
    simp only [Bool.false_eq_true, if_false, h1, h2]
  refine ⟨by rw [hres], by rw [hres]; rfl, ?_, perm_sortByLe _ _, ?_⟩
  · rw [hres]
    dsimp only [Option.map]
    rw [List.length_map, (perm_sortByLe _ _).length_eq]
  · exact (chain'_sortByLe (fun a b => decide (sampleCmp a b ≤ 0))
      (decide_cmp_total sampleCmp sampleCmp_total) _).imp
      (fun a b hab => (sampleCmp_le_iff a b).mp (by simpa using hab))

/-- C2 witness: the amended theorem applied to the concrete two-sample
bucket with no filters. -/
theorem claim_C2_witness :
    ("WebApp".isEmpty = false) ∧
    ((samplesGet dataSamplePair "WebApp").isEmpty = false) ∧
    ((filterSamples (samplesGet dataSamplePair "WebApp") none none).isEmpty = false) ∧
    (executeFindSamples dataSamplePair
      { kind := some "WebApp", complexity := none, tags := none,
        includeContent := true }).1.success = true :=
  ⟨by decide, by decide, by decide,
    (claim_C2_filter_sort_no_truncation dataSamplePair "WebApp" none none true
      (by decide) (by decide) (by decide)).1⟩

/-- C3: the claim states every query operation leaves the loaded data,
including each per-kind sample sequence's element order, unchanged. The
find-samples tool violates it: with no filters supplied,
filteredSamples is the stored bucket itself and Array.prototype.sort
reorders it in place. Evaluated here: the WebApp bucket loaded as
[advanced, simple] is [simple, advanced] after the call. -/
theorem claim_C3_find_samples_mutates_bucket :
    mapGet dataSamplePair.samples "WebApp" = some [sampleAdvanced, sampleSimple] ∧
    mapGet (executeFindSamples dataSamplePair { kind := some "WebApp" }).2.samples "WebApp" =
      some [sampleSimple, sampleAdvanced] ∧
    (executeFindSamples dataSamplePair { kind := some "WebApp" }).2 ≠ dataSamplePair := by
  refine ⟨by decide, by decide, by decide⟩

/-- C4: findGuidance output is ordered primarily by priority descending
and only secondarily by relevance score descending, and is truncated to
limit after sorting; concretely, the priority-10 document (score 105)
ranks before the priority-1 document despite the latter's strictly
higher score 110. -/
theorem claim_C4_two_level_sort :
    (∀ (data : LoadedData) (rt cat : Option String) (tags : Option (List String))
       (limit : Nat),
      (findGuidance data rt cat tags limit).Chain' (fun a b =>
        b.inst.frontmatter.priority.getD 0 < a.inst.frontmatter.priority.getD 0 ∨
        (a.inst.frontmatter.priority.getD 0 = b.inst.frontmatter.priority.getD 0 ∧
         b.relevanceScore ≤ a.relevanceScore)) ∧
      (findGuidance data rt cat tags limit).length ≤ limit) ∧
    findGuidance dataTwoGuides none none (some tagsTwenty) 10 =
      [ScoredInstruction.mk docPinned 105, ScoredInstruction.mk docRelevant 110] ∧
    (105 : Int) < 110 := by
  refine ⟨fun data rt cat tags limit => ⟨?_, ?_⟩, by decide, by decide⟩
  · unfold findGuidance
    dsimp only
    exact List.Chain'.take
      ((chain'_sortByLe (fun a b => decide (guidCmp a b ≤ 0))
          (decide_cmp_total guidCmp guidCmp_total) _).imp
        (fun a b hab => (guidCmp_le_iff a b).mp (by simpa using hab))) limit
  · unfold findGuidance
    dsimp only
    exact List.length_take_le limit _

/-- C5: for every document and query, the sequentially accumulated
relevance score of the source equals the specification's closed
additive formula: priority times ten, plus 20 for a declared or
detected kind containing the resourceType, plus 15 for a title match,
plus 15 for a category match, plus 5 per matching query tag; on a
document earning every bonus the score is 80. -/
theorem claim_C5_score_formula :
    (∀ (inst : InstructionDocument) (rt cat : Option String)
       (tags : Option (List String)),
      calculateRelevanceScore inst rt cat tags = specRelevanceScore inst rt cat tags) ∧
    calculateRelevanceScore docScoring (some "Redis") (some "database")
      (some ["aa", "bb"]) = 80 := by
  refine ⟨?_, by decide⟩
  intro inst rt cat tags
  unfold calculateRelevanceScore specRelevanceScore specKindBonus specTitleBonus
    specCategoryBonus specTagBonus
  dsimp only
  rcases rt with _ | r
  · rcases cat with _ | c <;> rcases tags with _ | ts <;> dsimp only <;> (try split_ifs) <;>
      omega
  · by_cases hr : r.isEmpty <;>
      simp only [hr, Bool.not_false, Bool.not_true, Bool.true_and, Bool.false_and,
        Bool.false_eq_true, if_false, if_true] <;>
      rcases cat with _ | c <;> rcases tags with _ | ts <;> dsimp only <;> (try split_ifs) <;>
      omega

/-- C6 counterexample: on a similarity tie the code keeps Map insertion
order (stable sort with a similarity-only comparator), not the kind
lexical order the claim states: for the index [caz, cay] and the query
cat, both kinds score 2/3, the code suggests [g1/caz, g2/cay], while
the spec's tie-break demands [g2/cay, g1/caz]. -/
theorem claim_C6_counterexample :
    findSimilarResources dataTieBreak "cat" 5 = ["g1/caz", "g2/cay"] ∧
    specFuzzySuggestions dataTieBreak "cat" = ["g2/cay", "g1/caz"] ∧
    findSimilarResources dataTieBreak "cat" 5 ≠ specFuzzySuggestions dataTieBreak "cat" := by
  refine ⟨by decide, by decide, by decide⟩

/-- C6 amended: the fuzzy fallback computes the max of the query's
similarity to each definition's kind, group and plural, keeps exactly
those strictly above 3/10, sorts descending by that similarity with
ties keeping index insertion order (stable sort), and returns at most
the first limit keys (5 at the details-tool call site). -/
theorem claim_C6_threshold_sort_top5 (data : LoadedData) (query : String) (limit : Nat) :
    findSimilarResources data query limit =
      ((sortByLe (fun a b => decide (b.2 ≤ a.2)) (similarityCandidates data query)).take
        limit).map Prod.fst ∧
    (findSimilarResources data query limit).length ≤ limit ∧
    (∀ p ∈ similarityCandidates data query, mkRat 3 10 < p.2) ∧
    (∀ kv ∈ data.crds, mkRat 3 10 < maxSimilarity3 query kv.2 →
      (kv.1, maxSimilarity3 query kv.2) ∈ similarityCandidates data query) ∧
    (sortByLe (fun a b => decide (b.2 ≤ a.2)) (similarityCandidates data query)).Chain'
      (fun a b => b.2 ≤ a.2) := by
  refine ⟨rfl, ?_, ?_, ?_, ?_⟩
  · unfold findSimilarResources
    rw [List.length_map]
    exact List.length_take_le limit _
  · intro p hp
    rcases List.mem_filterMap.mp hp with ⟨kv, hkv, heq⟩
    by_cases h : mkRat 3 10 < maxSimilarity3 query kv.2
    · rw [if_pos h] at heq
      cases heq
      exact h
    · rw [if_neg h] at heq
      cases heq
  · intro kv hkv h
    exact List.mem_filterMap.mpr ⟨kv, hkv, by rw [if_pos h]⟩
  · exact (chain'_sortByLe (fun a b => decide (b.2 ≤ a.2))
      (fun a b => simLe_total a b) (similarityCandidates data query)).imp
      (fun a b hab => by simpa using hab)

/-- C6 witness: the amended theorem applied to the tie-break index,
discharging the threshold-membership hypothesis at a concrete
candidate. -/
theorem claim_C6_witness :
    (("g1/caz", mkRat 2 3) ∈ similarityCandidates dataTieBreak "cat") ∧
    mkRat 3 10 < (("g1/caz", mkRat 2 3) : String × ℚ).2 :=
  ⟨by decide,
    (claim_C6_threshold_sort_top5 dataTieBreak "cat" 5).2.2.1 ("g1/caz", mkRat 2 3)
      (by decide)⟩

/-- C7 counterexample: calculateSimilarity does not lower-case its
inputs, so it is not case-insensitive: similarity of ABC and abc is 0,
not the claimed 1, and differs from the similarity of the lower-cased
pair. -/
theorem claim_C7_counterexample :
    calculateSimilarity "ABC" "abc" = 0 ∧
    calculateSimilarity "ABC" "abc" ≠ 1 ∧
    calculateSimilarity "ABC" "abc" ≠
      calculateSimilarity (lowerStr "ABC") (lowerStr "abc") := by
  refine ⟨by decide, by decide, by decide⟩

/-- C7 amended: the scorer itself is case-sensitive; every call site
lower-cases both arguments first, so the similarity the program
observes is case-insensitive: fuzzy suggestions coincide for queries
equal up to case, and the scorer on the lower-cased pair ABC, abc
returns 1. -/
theorem claim_C7_caller_case_insensitive :
    (∀ (data : LoadedData) (q q' : String) (limit : Nat), lowerStr q = lowerStr q' →
      findSimilarResources data q limit = findSimilarResources data q' limit) ∧
    calculateSimilarity (lowerStr "ABC") (lowerStr "abc") = 1 := by
  refine ⟨?_, by decide⟩
  intro data q q' limit h
  unfold findSimilarResources similarityCandidates maxSimilarity3
  simp only [h]

/-- C7 witness: the amended theorem applied at two queries differing
only in case against the WebApp index. -/
theorem claim_C7_witness :
    lowerStr "WebAPP" = lowerStr "webapp" ∧
    findSimilarResources dataWebApp "WebAPP" 5 = findSimilarResources dataWebApp "webapp" 5 :=
  ⟨by decide,
    claim_C7_caller_case_insensitive.1 dataWebApp "WebAPP" "webapp" 5 (by decide)⟩

/-- C8: calling the guidance tool with resourceType and category absent
or empty and tags absent or the empty array always yields the
EmptyQuery validation failure, which is unsuccessful and carries
suggestions; with a resourceType supplied against a matching corpus the
call succeeds instead. -/
theorem claim_C8_empty_query_failure :
    (∀ (data : LoadedData) (rt cat : Option String) (tags : Option (List String))
       (lim : Option Nat),
      optStrTruthy rt = false → optStrTruthy cat = false → optListBlank tags = true →
      executeGuidance data { resourceType := rt, category := cat, tags := tags, limit := lim } =
        emptyQueryFailure) ∧
    emptyQueryFailure.success = false ∧
    emptyQueryFailure.suggestions ≠ none ∧
    (executeGuidance dataOneGuide { resourceType := some "TestResource" }).success = true := by
  refine ⟨?_, by decide, by decide, by decide⟩
  intro data rt cat tags lim h1 h2 h3
  unfold executeGuidance
  dsimp only
  simp [h1, h2, h3]

/-- C8 witness: the theorem applied with an empty-string resourceType,
absent category, empty tag array and an explicit limit. -/
theorem claim_C8_witness :
    optStrTruthy (some "") = false ∧
    optStrTruthy (none : Option String) = false ∧
    optListBlank (some ([] : List String)) = true ∧
    executeGuidance dataOneGuide
      { resourceType := some "", category := none, tags := some [], limit := some 25 } =
      emptyQueryFailure :=
  ⟨by decide, by decide, by decide,
    claim_C8_empty_query_failure.1 dataOneGuide (some "") none (some []) (some 25)
      (by decide) (by decide) (by decide)⟩

/-- C9: index build never fails on duplicate composite keys: for every
input sequence the built map binds each key to the last definition
carrying it (all other keys unaffected, quantified over every key), the
number of retained entries plus the number of warnings equals the
number of input definitions (every duplicate is recorded as a warning),
and on a concrete duplicate pair the second definition wins while one
warning string is returned. -/
theorem claim_C9_duplicate_last_write_wins :
    (∀ (docs : List CRDMetadata) (key : String),
      mapGet (loadCRDs docs).1 key =
        (docs.filter (fun d => crdKeyOf d == key)).getLast?) ∧
    (∀ docs : List CRDMetadata,
      (loadCRDs docs).1.length + (loadCRDs docs).2.length = docs.length) ∧
    loadCRDs [crdDupFirst, crdDupSecond] =
      ([("example.com/WebApp", crdDupSecond)],
       ["Duplicate CRD found: example.com/WebApp (crds/b.yaml)"]) := by
  refine ⟨?_, ?_, by decide⟩
  · intro docs key
    unfold loadCRDs
    rw [loadCRDs_fold_lookup]
    cases (docs.filter (fun d => crdKeyOf d == key)).getLast? <;> rfl
  · intro docs
    unfold loadCRDs
    rw [loadCRDs_fold_length]
    simp

/-- C10: in a successful DescribeResource call, at most 5 guidance
entries are returned, and each entry's content is the source
instruction's body truncated to its first 500 characters followed by
an ellipsis when the body exceeds 500 characters, or the full body
otherwise. -/
theorem claim_C10_truncated_guidance (data : LoadedData) (rt : String) (crd : CRDMetadata)
    (hget : mapGet data.crds rt = some crd) (hrt : rt.isEmpty = false) :
    ∃ payload, (executeDetails data (some rt)).data = some payload ∧
      payload.instructions.length ≤ 5 ∧
      ∀ e ∈ payload.instructions, ∃ inst, inst ∈ data.instructions ∧
        e.title = inst.title ∧
        e.content = inst.content.take 500 ++
          (if 500 < inst.content.length then "..." else "") := by
  have hres : (executeDetails data (some rt)).data = some
      { resourceType := rt
        metadata := detailsMetadataOf crd
        samples := samplesGet data crd.kind
        instructions := (findRelevantInstructions data (some crd.kind)
          (some [jsOrStr crd.category ""])).take 5 } := by
    unfold executeDetails
    dsimp only
    rw [hrt]
    simp only [Bool.false_eq_true, if_false, hget]
  refine ⟨_, hres, ?_, ?_⟩
  · exact List.length_take_le 5 _
  · intro e he
    have he' : e ∈ findRelevantInstructions data (some crd.kind)
        (some [jsOrStr crd.category ""]) := List.mem_of_mem_take he
    unfold findRelevantInstructions at he'
    rcases List.mem_map.mp he' with ⟨inst, hinst, heq⟩
    have hinst' : inst ∈ data.instructions := by
      have := (mem_sortByLe _ _ inst).mp hinst
      exact (List.mem_filter.mp this).1
    exact ⟨inst, hinst', by rw [← heq]; rfl, by rw [← heq]; rfl⟩

/-- C10 witness: the theorem applied at the WebApp index with its exact
composite key. -/
theorem claim_C10_witness :
    mapGet dataWebApp.crds "example.com/WebApp" = some webAppCRD ∧
    "example.com/WebApp".isEmpty = false ∧
    (∃ payload, (executeDetails dataWebApp (some "example.com/WebApp")).data = some payload ∧
      payload.instructions.length ≤ 5 ∧
      ∀ e ∈ payload.instructions, ∃ inst, inst ∈ dataWebApp.instructions ∧
        e.title = inst.title ∧
        e.content = inst.content.take 500 ++
          (if 500 < inst.content.length then "..." else "")) :=
  ⟨by decide, by decide,
    claim_C10_truncated_guidance dataWebApp "example.com/WebApp" webAppCRD
      (by decide) (by decide)⟩
